import Mathlib

/-!
Verification of the upload ingestion handler of the Watch_server repository
(src/server.py, `upload`, lines 472-643; the second copy under
src/TWatchMonitor-20251116T051209Z-1-001/TWatchMonitor/server.py has the same
event-derivation logic).

The handler is shallowly embedded as a pure function over
(request body, previous store) returning (HTTP response, new store).

Modelling scope, stated once here:
- JSON values are modelled by `JValue`; JSON numbers are restricted to
  integers (the claims under verification never inspect a non-integral
  number; Python float NaN and Infinity are outside the model).
- Python string lowering is modelled on the ASCII range only
  (the event labels compared by the code are all ASCII).
- Python dict equality is modelled pairwise in key order; all objects the
  code compares originate from payloads compared against themselves, where
  the two notions coincide.
- JSON objects are association lists assumed to carry unique keys, as
  produced by a JSON parser.
- Timestamps are threaded as an opaque `now : String` parameter.
- The Supabase / SQLite persistence calls of the handler are wrapped by the
  source in try/except blocks that only log; they do not affect the
  response or the JSON store and are not modelled.
-/

namespace WatchServer

/-- A JSON value as decoded by Python json.loads (numbers restricted to
integers, see the scope note above). -/
inductive JValue where
  | jnull
  | jbool (b : Bool)
  | jnum (n : Int)
  | jstr (s : String)
  | jarr (xs : List JValue)
  | jobj (fs : List (String × JValue))

-- Structural (constructor-wise) equality test on JSON values.
mutual
def jbeq : JValue → JValue → Bool
  | .jnull, .jnull => true
  | .jbool a, .jbool b => a == b
  | .jnum a, .jnum b => a == b
  | .jstr a, .jstr b => a == b
  | .jarr a, .jarr b => jbeqList a b
  | .jobj a, .jobj b => jbeqObj a b
  | _, _ => false
def jbeqList : List JValue → List JValue → Bool
  | [], [] => true
  | a :: as, b :: bs => jbeq a b && jbeqList as bs
  | _, _ => false
def jbeqObj : List (String × JValue) → List (String × JValue) → Bool
  | [], [] => true
  | (k, a) :: as, (l, b) :: bs => k == l && jbeq a b && jbeqObj as bs
  | _, _ => false
end

-- Normalisation underlying Python equality: Python `True == 1` and
-- `False == 0`, also inside containers; every other cross-type comparison of
-- JSON values is unequal.
mutual
def jnorm : JValue → JValue
  | .jnull => .jnull
  | .jbool b => .jnum (if b then 1 else 0)
  | .jnum n => .jnum n
  | .jstr s => .jstr s
  | .jarr xs => .jarr (jnormList xs)
  | .jobj fs => .jobj (jnormObj fs)
def jnormList : List JValue → List JValue
  | [] => []
  | x :: xs => jnorm x :: jnormList xs
def jnormObj : List (String × JValue) → List (String × JValue)
  | [] => []
  | (k, v) :: fs => (k, jnorm v) :: jnormObj fs
end

/-- Python `==` on JSON values. -/
def pyEq (a b : JValue) : Bool := jbeq (jnorm a) (jnorm b)

/-- Python `bool(x)` truthiness on JSON values (never raises). -/
def pyTruthy : JValue → Bool
  | .jnull => false
  | .jbool b => b
  | .jnum n => !(n == 0)
  | .jstr s => !s.data.isEmpty
  | .jarr xs => !xs.isEmpty
  | .jobj fs => !fs.isEmpty

/-- Python `int(bool(x))`. -/
def pyBoolInt (v : JValue) : Int := if pyTruthy v then 1 else 0

/-- Decimal digits of a natural number (fuel-driven so that it reduces in
the kernel; the fuel argument is always sufficient). -/
def natDigits : Nat → Nat → List Char
  | 0, _ => []
  | fuel + 1, n =>
    if n < 10 then [Char.ofNat (48 + n)]
    else natDigits fuel (n / 10) ++ [Char.ofNat (48 + n % 10)]

def natRepr (n : Nat) : String := ⟨natDigits (n + 1) n⟩

def intRepr (i : Int) : String :=
  if i < 0 then "-" ++ natRepr i.natAbs else natRepr i.toNat

-- Python `repr` of a JSON value (string quoting approximated with single
-- quotes; only ever compared against unquoted alphabetic labels).
mutual
def pyRepr : JValue → String
  | .jnull => "None"
  | .jbool true => "True"
  | .jbool false => "False"
  | .jnum n => intRepr n
  | .jstr s => "\x27" ++ s ++ "\x27"
  | .jarr xs => "[" ++ pyReprSeq xs ++ "]"
  | .jobj fs => "\x7b" ++ pyReprFields fs ++ "\x7d"
def pyReprSeq : List JValue → String
  | [] => ""
  | [x] => pyRepr x
  | x :: xs => pyRepr x ++ ", " ++ pyReprSeq xs
def pyReprFields : List (String × JValue) → String
  | [] => ""
  | [(k, v)] => "\x27" ++ k ++ "\x27: " ++ pyRepr v
  | (k, v) :: fs => "\x27" ++ k ++ "\x27: " ++ pyRepr v ++ ", " ++ pyReprFields fs
end

/-- Python `str(x)` on JSON values. -/
def pyStr : JValue → String
  | .jstr s => s
  | v => pyRepr v

/-- Python `.lower()` (ASCII range, see the scope note). -/
def strLower (s : String) : String :=
  ⟨s.data.map fun c =>
    if 65 ≤ c.toNat && c.toNat ≤ 90 then Char.ofNat (c.toNat + 32) else c⟩

/-- The characters Python `str.strip()` and `int()` strip: those for
which `str.isspace()` holds, i.e. ASCII whitespace 0x09-0x0d and 0x20,
the separator controls 0x1c-0x1f, NEL 0x85, NBSP 0xa0, Ogham space mark
0x1680, the Unicode spaces 0x2000-0x200a, the line and paragraph
separators 0x2028-0x2029, narrow no-break space 0x202f, medium
mathematical space 0x205f, and ideographic space 0x3000. -/
def isSpaceChar (c : Char) : Bool :=
  let n := c.toNat
  (9 ≤ n && n ≤ 13) || n == 32 || (28 ≤ n && n ≤ 31) || n == 133 || n == 160 ||
  n == 5760 || (8192 ≤ n && n ≤ 8202) || n == 8232 || n == 8233 ||
  n == 8239 || n == 8287 || n == 12288

/-- A string that Python `str.strip()` reduces to the empty string. -/
def isBlank (s : String) : Bool := s.data.all isSpaceChar

def isDigitChar (c : Char) : Bool := 48 ≤ c.toNat && c.toNat ≤ 57

def digitsToNat (cs : List Char) : Nat :=
  cs.foldl (fun a c => a * 10 + (c.toNat - 48)) 0

/-- Python `int(s)` on a string: optional surrounding whitespace, optional
sign, then a nonempty digit run; anything else raises ValueError (`none`). -/
def pyIntOfString (s : String) : Option Int :=
  let t := ((s.data.dropWhile isSpaceChar).reverse.dropWhile isSpaceChar).reverse
  match t with
  | [] => none
  | c :: rest =>
    if c.toNat == 43 then
      if !rest.isEmpty && rest.all isDigitChar then some (digitsToNat rest) else none
    else if c.toNat == 45 then
      if !rest.isEmpty && rest.all isDigitChar then some (-(digitsToNat rest : Int)) else none
    else if (c :: rest).all isDigitChar then some (digitsToNat (c :: rest)) else none

/-- Python `int(v)` on a JSON value; `none` models the raised exception. -/
def pyInt : JValue → Option Int
  | .jbool b => some (if b then 1 else 0)
  | .jnum n => some n
  | .jstr s => pyIntOfString s
  | _ => none

/-- First-match lookup in a JSON object, i.e. Python `d.get(k)` under the
unique-keys assumption. -/
def lookupJ : List (String × JValue) → String → Option JValue
  | [], _ => none
  | (k, v) :: fs, key => if k == key then some v else lookupJ fs key

/-- Field update for `temperature` (server.py lines 526-530):
`float(incoming["temperature"])`, storing the raw value on failure.
`float()` is modelled on the integer fragment of the number model; the
stored temperature is not observed by any claim. -/
def coerceTemperature (v : JValue) : JValue :=
  match pyInt v with
  | some n => .jnum n
  | none => v

/-- Field update for `steps` (lines 531-535): `int(incoming["steps"])`,
storing the raw value on failure. -/
def coerceSteps (v : JValue) : JValue :=
  match pyInt v with
  | some n => .jnum n
  | none => v

/-- Field update for `sleep_state` (lines 536-543):
`int(bool(int(v)))`, falling back to `int(bool(v))`; since `bool()` never
raises on a JSON value, the final raw-store branch of the source is
unreachable and the result is always 0 or 1. -/
def coerceSleep (v : JValue) : JValue :=
  match pyInt v with
  | some n => .jnum (if n == 0 then 0 else 1)
  | none => .jnum (pyBoolInt v)

/-- The check `str(incoming.get("event", "")).lower() == name`
(lines 546, 550, 554). -/
def labelIs (fields : List (String × JValue)) (name : String) : Bool :=
  strLower (pyStr ((lookupJ fields "event").getD (.jstr ""))) == name

/-- Flag update for fall/seizure/sos (lines 544-555): set to
`int(bool(v))` when the key is present, to 1 when the free-text event
label matches the flag name, and left unchanged otherwise. -/
def flagUpdate (fields : List (String × JValue)) (name : String) (old : JValue) : JValue :=
  match lookupJ fields name with
  | some v => .jnum (pyBoolInt v)
  | none => if labelIs fields name then .jnum 1 else old

/-- One event record appended to the per-device `events` list. -/
structure Event where
  event : String
  ts : String
  payload : JValue

/-- The per-device snapshot record kept in the JSON data store
(the default record is created at lines 498-510). -/
structure Dev where
  display_name : JValue
  temperature : JValue
  steps : JValue
  fall : JValue
  seizure : JValue
  sos : JValue
  sleep_state : JValue
  timestamp : Option String
  events : List Event
  last_raw : JValue

/-- The record created for a previously unseen device id (lines 498-510). -/
def defaultDev (device : JValue) : Dev :=
  { display_name := device
    temperature := .jnull
    steps := .jnull
    fall := .jnum 0
    seizure := .jnum 0
    sos := .jnum 0
    sleep_state := .jnum 0
    timestamp := none
    events := []
    last_raw := .jnull }

/-- The unconditional field-update step of the handler (lines 526-556);
each field depends only on its own payload key, so the sequential
assignments of the source are written as one simultaneous record update. -/
def applyFields (fields : List (String × JValue)) (d : Dev) (now : String) : Dev :=
  { d with
    temperature :=
      match lookupJ fields "temperature" with
      | some v => coerceTemperature v
      | none => d.temperature
    steps :=
      match lookupJ fields "steps" with
      | some v => coerceSteps v
      | none => d.steps
    sleep_state :=
      match lookupJ fields "sleep_state" with
      | some v => coerceSleep v
      | none => d.sleep_state
    fall := flagUpdate fields "fall" d.fall
    seizure := flagUpdate fields "seizure" d.seizure
    sos := flagUpdate fields "sos" d.sos
    timestamp := some now }

/-- Line 560: `incoming.get("event", "").lower() if "event" in incoming
else None`. The source calls `.lower()` on the raw value without `str()`,
so a present non-string event value raises AttributeError, which the outer
handler turns into HTTP 500; `Except.error` models that exception. -/
def eventTypeOf (fields : List (String × JValue)) : Except Unit (Option String) :=
  match lookupJ fields "event" with
  | none => .ok none
  | some (.jstr s) => .ok (some (strLower s))
  | some _ => .error ()

/-- Reading one of the three alert flags out of a snapshot by name. -/
def flagOf (d : Dev) : String → JValue
  | "fall" => d.fall
  | "seizure" => d.seizure
  | "sos" => d.sos
  | _ => .jnum 0

/-- The alert flags in the order the loop at line 562 checks them. -/
def alertFlags : List String := ["seizure", "fall", "sos"]

/-- The body of one iteration of the alert loop (lines 562-566): the flag
key is present or the event label equals the flag name, and
`int(bool(incoming.get(flag, 0)))` is 1 while
`int(bool(prev.get(flag, 0)))` is 0. -/
def alertCond (fields : List (String × JValue)) (prev : Dev) (etype : Option String)
    (f : String) : Bool :=
  ((lookupJ fields f).isSome || etype == some f) &&
  pyBoolInt ((lookupJ fields f).getD (.jnum 0)) == 1 &&
  pyBoolInt (flagOf prev f) == 0

/-- The first flag (in loop order) whose rising edge fires, if any;
the loop breaks after the first match (line 576). -/
def findAlert (fields : List (String × JValue)) (prev : Dev) (etype : Option String) :
    Option String :=
  alertFlags.find? (alertCond fields prev etype)

/-- Python `(event_type or default)` on the optional lowered label. -/
def orLabel : Option String → String → String
  | some "", d => d
  | some t, _ => t
  | none, d => d

/-- The event name used by the sleep and steps branches (lines 582, 595):
`default if event_type == "status" else (event_type or default)`. -/
def branchName (etype : Option String) (d : String) : String :=
  if etype == some "status" then d else orLabel etype d

/-- The sleep-state branch guard (lines 578-581): no alert fired, the key
is present, and `prev != new` under Python equality. -/
def sleepFires (prev dev : Dev) (fields : List (String × JValue)) : Bool :=
  (lookupJ fields "sleep_state").isSome && !(pyEq prev.sleep_state dev.sleep_state)

/-- The steps branch guard (lines 591-594): the key is present, and the
previous value `is None` or `new != old` under Python equality. -/
def stepsFires (prev dev : Dev) (fields : List (String × JValue)) : Bool :=
  (lookupJ fields "steps").isSome &&
  (jbeq prev.steps .jnull || !(pyEq dev.steps prev.steps))

/-- The generic-fallback guard on the label (line 604):
`event_type and event_type not in ["status", ""]`. -/
def genericFires : Option String → Bool
  | some t => !(t == "status") && !(t == "")
  | none => false

/-- The event-derivation step (lines 559-611): first alert rising edge in
loop order (at most one alert, full payload); otherwise the sleep and
steps branches, each gated only on `alert_triggered`; the generic label
branch only when `events_created` is still empty. Returns the events
appended to the device log and the `events_created` response list. -/
def deriveEvents (prev dev : Dev) (fields : List (String × JValue))
    (etype : Option String) (now : String) : List Event × List String :=
  match findAlert fields prev etype with
  | some f => ([⟨f, now, .jobj fields⟩], [f])
  | none =>
    let sEvs : List Event :=
      if sleepFires prev dev fields then
        [⟨branchName etype "sleep_state_change", now, .jobj [("sleep_state", dev.sleep_state)]⟩]
      else []
    let sCr : List String :=
      if sleepFires prev dev fields then ["sleep_state_change"] else []
    let tEvs : List Event :=
      if stepsFires prev dev fields then
        [⟨branchName etype "steps_update", now, .jobj [("steps", dev.steps)]⟩]
      else []
    let tCr : List String :=
      if stepsFires prev dev fields then ["steps_update"] else []
    if (sCr ++ tCr).isEmpty then
      match etype with
      | some t => if genericFires (some t) then ([⟨t, now, .jobj fields⟩], [t]) else ([], [])
      | none => ([], [])
    else (sEvs ++ tEvs, sCr ++ tCr)

/-- Python `lst[-n:]`. -/
def lastN (n : Nat) (l : List α) : List α := l.drop (l.length - n)

/-- The snapshot after the field-update step, with `last_raw` set to the
incoming payload (line 521) and `timestamp` to now (line 556). -/
def ingestDev (dev0 : Dev) (fields : List (String × JValue)) (now : String) : Dev :=
  applyFields fields { dev0 with last_raw := .jobj fields } now

/-- The result of one successful ingestion: the updated snapshot (with the
event log trimmed to the last 200 entries, line 614), the events appended
in this call, and the `events_created` response list. -/
structure IngestOut where
  dev : Dev
  newEvents : List Event
  created : List String

/-- One ingestion call on a previous snapshot (lines 514-614): update the
fields, compute the lowered event label (raising on a non-string label),
derive events against the state captured before the update, and trim the
log. The source computes the label after the field updates; on the raised
exception the mutated in-memory record is discarded unsaved, so hoisting
the label computation before the update is behaviour-preserving. -/
def ingest (dev0 : Dev) (fields : List (String × JValue)) (now : String) :
    Except Unit IngestOut :=
  match eventTypeOf fields with
  | .error e => .error e
  | .ok etype =>
    let dev := ingestDev dev0 fields now
    let ec := deriveEvents dev0 dev fields etype now
    .ok ⟨{ dev with events := lastN 200 (dev.events ++ ec.1) }, ec.1, ec.2⟩

/-- The JSON data store: device key to snapshot record, keyed with Python
dict semantics (lookup up to Python equality). -/
abbrev Store := List (JValue × Dev)

/-- Python `data[device]` lookup (dict keys compare with Python `==`). -/
def storeGet : Store → JValue → Option Dev
  | [], _ => none
  | (k, d) :: st, key => if pyEq k key then some d else storeGet st key

/-- Python `data[device] = dev`: replace the first matching key (keeping
the original key object, as dict assignment does) or append. -/
def storeSet : Store → JValue → Dev → Store
  | [], key, d => [(key, d)]
  | (k, d0) :: st, key, d =>
    if pyEq k key then (k, d) :: st else (k, d0) :: storeSet st key d

/-- A decoded request body: either text that does not parse as JSON, or a
parsed JSON value (lines 474-487 parse with a raw-text fallback). -/
inductive Body where
  | malformed (txt : String)
  | parsed (v : JValue)

/-- The HTTP response of the handler: 200 with the `events_created` list,
400 with an error code, or 500 (`processing_error` or an unhandled
TypeError for an unhashable device key). -/
inductive Response where
  | ok (eventsCreated : List String)
  | badRequest (error : String)
  | serverError

/-- The HTTP status code of a response. -/
def Response.code : Response → Nat
  | .ok _ => 200
  | .badRequest _ => 400
  | .serverError => 500

/-- Python `a or b` (first truthy operand). -/
def pyOr (a b : JValue) : JValue := if pyTruthy a then a else b

/-- Python `incoming.get(k)` with default None. -/
def jGet (fields : List (String × JValue)) (k : String) : JValue :=
  (lookupJ fields k).getD .jnull

/-- Line 492: `incoming.get("device_id") or incoming.get("device") or
incoming.get("deviceId")`. -/
def getDevice (fields : List (String × JValue)) : JValue :=
  pyOr (jGet fields "device_id") (pyOr (jGet fields "device") (jGet fields "deviceId"))

/-- Python hashability of a JSON value: lists and dicts are unhashable, so
using one as a dict key at line 498 raises TypeError. -/
def pyHashable : JValue → Bool
  | .jarr _ => false
  | .jobj _ => false
  | _ => true

/-- The handler body once a parsed object payload is in hand
(lines 492-643). -/
def uploadObj (fields : List (String × JValue)) (now : String) (st : Store) :
    Response × Store :=
  let device := getDevice fields
  if !pyTruthy device then (.badRequest "missing_device_id", st)
  else if !pyHashable device then (.serverError, st)
  else
    let dev0 := (storeGet st device).getD (defaultDev device)
    match ingest dev0 fields now with
    | .error _ => (.serverError, st)
    | .ok out => (.ok out.created, storeSet st device out.dev)

/-- The full upload handler (lines 472-643). A body that fails JSON
parsing falls back to a raw decode (lines 479-487): blank text yields
`incoming = None` and is then rejected as a non-object; other unparseable
text is rejected as `invalid_json`. A parsed non-object is rejected as
`payload_must_be_object` (line 489). -/
def upload (body : Body) (now : String) (st : Store) : Response × Store :=
  match body with
  | .malformed txt =>
    if isBlank txt then (.badRequest "payload_must_be_object", st)
    else (.badRequest "invalid_json", st)
  | .parsed v =>
    match v with
    | .jobj fields => uploadObj fields now st
    | _ => (.badRequest "payload_must_be_object", st)

/-- The event log of a device in the store (empty for an absent device). -/
def eventsOf (st : Store) (k : JValue) : List Event :=
  ((storeGet st k).map Dev.events).getD []

mutual
theorem jbeq_refl : (v : JValue) → jbeq v v = true
  | .jnull => rfl
  | .jbool b => by simp [jbeq]
  | .jnum n => by simp [jbeq]
  | .jstr s => by simp [jbeq]
  | .jarr xs => by simpa [jbeq] using jbeqList_refl xs
  | .jobj fs => by simpa [jbeq] using jbeqObj_refl fs
theorem jbeqList_refl : (xs : List JValue) → jbeqList xs xs = true
  | [] => rfl
  | x :: xs => by simp [jbeqList, jbeq_refl x, jbeqList_refl xs]
theorem jbeqObj_refl : (fs : List (String × JValue)) → jbeqObj fs fs = true
  | [] => rfl
  | (k, v) :: fs => by simp [jbeqObj, jbeq_refl v, jbeqObj_refl fs]
end

/-- Python equality is reflexive on the modelled values. -/
theorem pyEq_refl (v : JValue) : pyEq v v = true := jbeq_refl (jnorm v)

theorem jbeq_jnull_iff (v : JValue) : jbeq v .jnull = true ↔ v = .jnull := by
  cases v <;> simp [jbeq]

/-- The trimmed log has at most `n` entries. -/
theorem lastN_length_le (n : Nat) (l : List α) : (lastN n l).length ≤ n := by
  simp only [lastN, List.length_drop]
  omega

/-- Trimming keeps a suffix: the oldest entries are dropped first and the
order of the retained entries is preserved. -/
theorem lastN_suffix (n : Nat) (l : List α) : lastN n l <:+ l :=
  List.drop_suffix _ _

/-- Every entry of the store after an assignment is either an old entry or
carries the newly written record. -/
theorem storeSet_mem (st : Store) (k : JValue) (d : Dev) :
    ∀ p ∈ storeSet st k d, p ∈ st ∨ p.2 = d := by
  induction st with
  | nil => intro p hp; simp [storeSet] at hp; simp [hp]
  | cons q st ih =>
    intro p hp
    obtain ⟨qk, qd⟩ := q
    simp only [storeSet] at hp
    by_cases h : pyEq qk k = true
    · simp [h] at hp
      rcases hp with hp | hp
      · simp [hp]
      · exact Or.inl (by simp [hp])
    · simp [h] at hp
      rcases hp with hp | hp
      · exact Or.inl (by simp [hp])
      · rcases ih p hp with h1 | h1
        · exact Or.inl (List.mem_cons_of_mem _ h1)
        · exact Or.inr h1

theorem ingestDev_steps (dev0 : Dev) (fields : List (String × JValue)) (now : String) :
    (ingestDev dev0 fields now).steps =
      match lookupJ fields "steps" with
      | some v => coerceSteps v
      | none => dev0.steps := rfl

theorem ingestDev_sleep_state (dev0 : Dev) (fields : List (String × JValue)) (now : String) :
    (ingestDev dev0 fields now).sleep_state =
      match lookupJ fields "sleep_state" with
      | some v => coerceSleep v
      | none => dev0.sleep_state := rfl

theorem ingestDev_events (dev0 : Dev) (fields : List (String × JValue)) (now : String) :
    (ingestDev dev0 fields now).events = dev0.events := rfl

theorem ingestDev_flagOf (dev0 : Dev) (fields : List (String × JValue)) (now : String)
    (f : String) (hf : f ∈ alertFlags) :
    flagOf (ingestDev dev0 fields now) f = flagUpdate fields f (flagOf dev0 f) := by
  simp only [alertFlags, List.mem_cons, List.mem_singleton, List.not_mem_nil, or_false] at hf
  rcases hf with rfl | rfl | rfl <;> rfl

/-- Whether a JSON value is an object (Python `isinstance(incoming, dict)`,
line 489). -/
def isDict : JValue → Bool
  | .jobj _ => true
  | _ => false

set_option maxRecDepth 4000 in
/-- If a successful ingestion returns a snapshot, its event log is the
trimmed concatenation of the old log and the new events. -/
theorem ingest_events_trimmed (dev0 : Dev) (fields : List (String × JValue))
    (now : String) (out : IngestOut) (h : ingest dev0 fields now = .ok out) :
    out.dev.events.length ≤ 200 ∧ out.dev.events <:+ (dev0.events ++ out.newEvents) := by
  cases heta : eventTypeOf fields with
  | error e => simp only [ingest, heta] at h; cases h
  | ok etype =>
    simp only [ingest, heta] at h
    injection h with h2
    rw [← h2]
    exact ⟨lastN_length_le _ _, lastN_suffix _ _⟩

/-- Claim C1: a single upload call with a well-formed payload creates at
most one event. This is false: the steps branch is gated only on
`alert_triggered`, not on `events_created`, so a payload changing both
`sleep_state` and `steps` yields two events in one call.  The comment in the second copy of the handler itself says the logic was fixed to
create only one event, so this is recorded as a code bug; this theorem
evaluates the handler at the failing input. -/
theorem c1_single_call_two_events :
    (upload (.parsed (.jobj
        [("device_id", .jstr "W1"), ("sleep_state", .jnum 1), ("steps", .jnum 5)]))
        "t" []).1
      = .ok ["sleep_state_change", "steps_update"] ∧
    (["sleep_state_change", "steps_update"] : List String).length = 2 :=
  ⟨rfl, rfl⟩

/-- Claim C4: once a parsed object payload with a device id is in hand the
call never aborts. This is false: line 560 calls `.lower()` on the raw
event value without wrapping it in `str()` (unlike lines 546/550/554), so
a payload with a non-string event label raises AttributeError and the
handler answers HTTP 500 instead of 200; the store is left unchanged.
Recorded as a code bug; this theorem evaluates the handler at the failing
input. -/
theorem c4_nonstring_label_aborts :
    upload (.parsed (.jobj [("device_id", .jstr "W1"), ("event", .jnum 5)])) "t" []
      = (.serverError, []) ∧
    Response.code .serverError = 500 :=
  ⟨rfl, rfl⟩

/-- Claim C3, counterexample: a request body that is empty (or whitespace
only) is not parseable as JSON, yet the handler reports
`payload_must_be_object` rather than the `invalid_json` error the claim
assigns to unparseable bodies, because the raw-decode fallback turns blank
text into a `None` payload. -/
theorem c3_counterexample :
    upload (.malformed "") "t" [] = (.badRequest "payload_must_be_object", []) ∧
    "payload_must_be_object" ≠ "invalid_json" :=
  ⟨rfl, by decide⟩

/-- Claim C3 (amended): unparseable nonblank bodies are rejected with
`invalid_json`; blank bodies are treated as a `None` payload and rejected
with `payload_must_be_object`; parsed non-objects with
`payload_must_be_object`; object payloads without a truthy device
identifier with `missing_device_id`. All four answers are HTTP 400 and
leave the store untouched. -/
theorem c3_reject_before_mutation (txt : String) (v : JValue)
    (fields : List (String × JValue)) (now : String) (st : Store) :
    (isBlank txt = true →
      upload (.malformed txt) now st = (.badRequest "payload_must_be_object", st)) ∧
    (isBlank txt = false →
      upload (.malformed txt) now st = (.badRequest "invalid_json", st)) ∧
    (isDict v = false →
      upload (.parsed v) now st = (.badRequest "payload_must_be_object", st)) ∧
    (pyTruthy (getDevice fields) = false →
      upload (.parsed (.jobj fields)) now st = (.badRequest "missing_device_id", st)) := by
  refine ⟨?_, ?_, ?_, ?_⟩
  · intro h; simp [upload, h]
  · intro h; simp [upload, h]
  · intro h; cases v <;> first | (simp [upload]; done) | (simp [isDict] at h)
  · intro h; simp [upload, uploadObj, h]

/-- Claim C3, witness: the four rejections at concrete inputs. -/
theorem c3_witness :
    upload (.malformed "") "t" [] = (.badRequest "payload_must_be_object", []) ∧
    upload (.malformed "oops") "t" [] = (.badRequest "invalid_json", []) ∧
    upload (.parsed (.jnum 3)) "t" [] = (.badRequest "payload_must_be_object", []) ∧
    upload (.parsed (.jobj [("x", .jnum 1)])) "t" []
      = (.badRequest "missing_device_id", []) :=
  ⟨(c3_reject_before_mutation "" (.jnum 3) [("x", .jnum 1)] "t" []).1 rfl,
   (c3_reject_before_mutation "oops" (.jnum 3) [("x", .jnum 1)] "t" []).2.1 rfl,
   (c3_reject_before_mutation "" (.jnum 3) [("x", .jnum 1)] "t" []).2.2.1 rfl,
   (c3_reject_before_mutation "" (.jnum 3) [("x", .jnum 1)] "t" []).2.2.2 rfl⟩

/-- Claim C10: a device-identifier key holding a falsy value (empty
string, 0, false, null) is treated exactly like an absent key: the three
key names are consulted in the order device_id, device, deviceId, a falsy
earlier key falls through to the later ones, and if the whole chain is
falsy the call is rejected with `missing_device_id` and no mutation. -/
theorem c10_falsy_device_id (fields : List (String × JValue)) (now : String) (st : Store) :
    (pyTruthy (getDevice fields) = false →
      upload (.parsed (.jobj fields)) now st = (.badRequest "missing_device_id", st)) ∧
    (∀ v, lookupJ fields "device_id" = some v → pyTruthy v = false →
      getDevice fields = pyOr (jGet fields "device") (jGet fields "deviceId")) ∧
    (∀ v, lookupJ fields "device_id" = some v → pyTruthy v = true →
      getDevice fields = v) ∧
    (pyTruthy (.jstr "") = false ∧ pyTruthy (.jnum 0) = false ∧
      pyTruthy (.jbool false) = false ∧ pyTruthy .jnull = false) := by
  refine ⟨?_, ?_, ?_, by decide⟩
  · intro h; simp [upload, uploadObj, h]
  · intro v hv h; simp [getDevice, jGet, hv, pyOr, h]
  · intro v hv h; simp [getDevice, jGet, hv, pyOr, h]

/-- Claim C10, witness: an all-falsy chain is rejected; a falsy first key
falls through to the second; a truthy first key is used. -/
theorem c10_witness :
    upload (.parsed (.jobj
        [("device_id", .jstr ""), ("device", .jnum 0), ("deviceId", .jbool false)]))
        "t" []
      = (.badRequest "missing_device_id", []) ∧
    getDevice [("device_id", .jstr ""), ("device", .jstr "W9")] = .jstr "W9" ∧
    getDevice [("device_id", .jstr "W1")] = .jstr "W1" :=
  ⟨(c10_falsy_device_id
      [("device_id", .jstr ""), ("device", .jnum 0), ("deviceId", .jbool false)] "t" []).1 rfl,
   ((c10_falsy_device_id [("device_id", .jstr ""), ("device", .jstr "W9")] "t" []).2.1
      (.jstr "") rfl rfl).trans rfl,
   (c10_falsy_device_id [("device_id", .jstr "W1")] "t" []).2.2.1 (.jstr "W1") rfl rfl⟩

/-- Claim C8: a flag whose key is absent and whose name the event label
does not match is left unchanged by the field-update step (flags are
sticky), and a payload holding a falsy value for the flag (falling edge)
sets the flag to 0 but can never make the alert loop fire for that
flag. -/
theorem c8_flags_sticky_and_falling_edge (fields : List (String × JValue))
    (d dev0 : Dev) (now : String) (f : String) (hf : f ∈ alertFlags) :
    (lookupJ fields f = none → labelIs fields f = false →
      flagOf (ingestDev d fields now) f = flagOf d f) ∧
    (∀ v, lookupJ fields f = some v → pyTruthy v = false →
      flagOf (ingestDev d fields now) f = .jnum 0 ∧
      ∀ etype, findAlert fields dev0 etype ≠ some f) := by
  constructor
  · intro h1 h2
    rw [ingestDev_flagOf d fields now f hf]
    simp [flagUpdate, h1, h2]
  · intro v h1 h2
    constructor
    · rw [ingestDev_flagOf d fields now f hf]
      simp [flagUpdate, h1, pyBoolInt, h2]
    · intro etype hcontra
      have hc := List.find?_some hcontra
      simp [alertCond, h1, pyBoolInt, h2] at hc

/-- Claim C8, witness: with the key absent and no matching label a set
flag survives; a falling-edge payload clears the flag without any alert
firing. -/
theorem c8_witness :
    lookupJ [("device_id", .jstr "W1")] "fall" = none ∧
    labelIs [("device_id", .jstr "W1")] "fall" = false ∧
    flagOf (ingestDev { defaultDev (.jstr "W1") with fall := .jnum 1 }
        [("device_id", .jstr "W1")] "t") "fall"
      = flagOf { defaultDev (.jstr "W1") with fall := .jnum 1 } "fall" ∧
    (flagOf (ingestDev { defaultDev (.jstr "W1") with fall := .jnum 1 }
        [("device_id", .jstr "W1"), ("fall", .jnum 0)] "t") "fall" = .jnum 0 ∧
      ∀ etype, findAlert [("device_id", .jstr "W1"), ("fall", .jnum 0)]
        { defaultDev (.jstr "W1") with fall := .jnum 1 } etype ≠ some "fall") :=
  ⟨rfl, rfl,
   (c8_flags_sticky_and_falling_edge [("device_id", .jstr "W1")]
      { defaultDev (.jstr "W1") with fall := .jnum 1 }
      { defaultDev (.jstr "W1") with fall := .jnum 1 } "t" "fall"
      (by simp [alertFlags])).1 rfl rfl,
   (c8_flags_sticky_and_falling_edge [("device_id", .jstr "W1"), ("fall", .jnum 0)]
      { defaultDev (.jstr "W1") with fall := .jnum 1 }
      { defaultDev (.jstr "W1") with fall := .jnum 1 } "t" "fall"
      (by simp [alertFlags])).2 (.jnum 0) rfl rfl⟩

/-- Claim C9: after an upload call every device in the store holds at most
200 events (given the store already satisfied the cap), and the updated
snapshot event log is a suffix of the old log extended by the newly
created events: the oldest entries are dropped first and insertion order
is preserved. -/
theorem c9_event_log_capped (body : Body) (now : String) (st : Store)
    (hst : ∀ p ∈ st, (p.2 : Dev).events.length ≤ 200) :
    (∀ p ∈ (upload body now st).2, (p.2 : Dev).events.length ≤ 200) ∧
    (∀ dev0 fields now2 out, ingest dev0 fields now2 = .ok out →
      out.dev.events.length ≤ 200 ∧ out.dev.events <:+ (dev0.events ++ out.newEvents)) := by
  constructor
  · cases body with
    | malformed txt =>
      intro p hp
      by_cases h : isBlank txt <;> (simp [upload, h] at hp; exact hst p hp)
    | parsed v =>
      cases v with
      | jobj fields =>
        intro p hp
        simp only [upload, uploadObj] at hp
        split at hp
        · exact hst p hp
        · split at hp
          · exact hst p hp
          · split at hp
            · exact hst p hp
            · next out heq =>
              rcases storeSet_mem st _ _ p hp with h1 | h1
              · exact hst p h1
              · rw [h1]; exact (ingest_events_trimmed _ _ _ _ heq).1
      | jnull => intro p hp; simp [upload] at hp; exact hst p hp
      | jbool b => intro p hp; simp [upload] at hp; exact hst p hp
      | jnum n => intro p hp; simp [upload] at hp; exact hst p hp
      | jstr s => intro p hp; simp [upload] at hp; exact hst p hp
      | jarr xs => intro p hp; simp [upload] at hp; exact hst p hp
  · intro dev0 fields now2 out h
    exact ingest_events_trimmed dev0 fields now2 out h

/-- Claim C9, witness: the cap statement instantiated at a concrete call
on the empty store. -/
theorem c9_witness :
    (∀ p ∈ (upload (.parsed (.jobj [("device_id", .jstr "W1"), ("fall", .jnum 1)]))
        "t" []).2, (p.2 : Dev).events.length ≤ 200) ∧
    (∀ dev0 fields now2 out, ingest dev0 fields now2 = .ok out →
      out.dev.events.length ≤ 200 ∧ out.dev.events <:+ (dev0.events ++ out.newEvents)) :=
  c9_event_log_capped (.parsed (.jobj [("device_id", .jstr "W1"), ("fall", .jnum 1)]))
    "t" [] (by simp)

/-- Claim C2, counterexample: with payload device_id W1, event label
"fall" and steps 5 against a fresh snapshot, the new snapshot fall flag
is 1 (set by the label match) while the previous value was 0, yet the one
event the call emits carries payload steps-only, not the full incoming
payload: the alert branch reads the new flag value from the payload key
(absent, hence 0), never from the event label, so the steps branch emits
instead. -/
theorem c2_counterexample :
    (upload (.parsed (.jobj
        [("device_id", .jstr "W1"), ("event", .jstr "fall"), ("steps", .jnum 5)]))
        "t" []).1
      = .ok ["steps_update"] ∧
    eventsOf (upload (.parsed (.jobj
        [("device_id", .jstr "W1"), ("event", .jstr "fall"), ("steps", .jnum 5)]))
        "t" []).2 (.jstr "W1")
      = [⟨"fall", "t", .jobj [("steps", .jnum 5)]⟩] ∧
    (storeGet (upload (.parsed (.jobj
        [("device_id", .jstr "W1"), ("event", .jstr "fall"), ("steps", .jnum 5)]))
        "t" []).2 (.jstr "W1")).map Dev.fall
      = some (.jnum 1) ∧
    lookupJ [("device_id", JValue.jstr "W1"), ("event", .jstr "fall"),
        ("steps", .jnum 5)] "device_id"
      = some (.jstr "W1") ∧
    lookupJ [("steps", (JValue.jnum 5))] "device_id" = none :=
  ⟨rfl, rfl, rfl, rfl, rfl⟩

/-- Claim C2 (amended): the alert branch evaluates the new value of a flag
as the truthiness of the payload value under the flag key (0 when the
key is absent, so an event-label-only match never fires the alert branch).
When a flag is the first in the order seizure, fall, sos whose condition
fires (guard plus strict 0 to 1 transition), the call emits exactly that
one alert event, with the flag name and the full incoming payload, and
stops.  When the flag key is present and truthy but its previous value
was already truthy, the alert loop never fires for that flag, yet the flag
stays set to 1. -/
theorem c2_alert_rising_edge (fields : List (String × JValue)) (dev0 : Dev)
    (now : String) (etype : Option String) (heta : eventTypeOf fields = .ok etype) :
    (∀ f, findAlert fields dev0 etype = some f →
      ingest dev0 fields now = .ok
        ⟨{ ingestDev dev0 fields now with
            events := lastN 200 ((ingestDev dev0 fields now).events
              ++ [⟨f, now, .jobj fields⟩]) },
          [⟨f, now, .jobj fields⟩], [f]⟩) ∧
    (∀ f v, f ∈ alertFlags → lookupJ fields f = some v → pyTruthy v = true →
      pyTruthy (flagOf dev0 f) = true →
      findAlert fields dev0 etype ≠ some f ∧
      flagOf (ingestDev dev0 fields now) f = .jnum 1) := by
  constructor
  · intro f hf
    simp only [ingest, heta]
    unfold deriveEvents
    rw [hf]
  · intro f v hf h1 h2 h3
    constructor
    · intro hcontra
      have hc := List.find?_some hcontra
      simp [alertCond, h1, pyBoolInt, h3] at hc
    · rw [ingestDev_flagOf dev0 fields now f hf]
      simp [flagUpdate, h1, pyBoolInt, h2]

/-- Claim C2, witness: a seizure rising edge emits exactly one alert event
with the full payload; a fall flag already set stays set and fires no
alert. -/
theorem c2_witness :
    eventTypeOf [("device_id", .jstr "W3"), ("seizure", .jnum 1)] = .ok none ∧
    findAlert [("device_id", .jstr "W3"), ("seizure", .jnum 1)]
        (defaultDev (.jstr "W3")) none = some "seizure" ∧
    ingest (defaultDev (.jstr "W3")) [("device_id", .jstr "W3"), ("seizure", .jnum 1)] "t"
      = .ok
        ⟨{ ingestDev (defaultDev (.jstr "W3"))
              [("device_id", .jstr "W3"), ("seizure", .jnum 1)] "t" with
            events := lastN 200 ((ingestDev (defaultDev (.jstr "W3"))
              [("device_id", .jstr "W3"), ("seizure", .jnum 1)] "t").events
              ++ [⟨"seizure", "t", .jobj [("device_id", .jstr "W3"), ("seizure", .jnum 1)]⟩]) },
          [⟨"seizure", "t", .jobj [("device_id", .jstr "W3"), ("seizure", .jnum 1)]⟩],
          ["seizure"]⟩ ∧
    (findAlert [("device_id", .jstr "W4"), ("fall", .jnum 1)]
        { defaultDev (.jstr "W4") with fall := .jnum 1 } none ≠ some "fall" ∧
      flagOf (ingestDev { defaultDev (.jstr "W4") with fall := .jnum 1 }
        [("device_id", .jstr "W4"), ("fall", .jnum 1)] "t") "fall" = .jnum 1) :=
  ⟨rfl, rfl,
   (c2_alert_rising_edge [("device_id", .jstr "W3"), ("seizure", .jnum 1)]
      (defaultDev (.jstr "W3")) "t" none rfl).1 "seizure" rfl,
   (c2_alert_rising_edge [("device_id", .jstr "W4"), ("fall", .jnum 1)]
      { defaultDev (.jstr "W4") with fall := .jnum 1 } "t" none rfl).2 "fall" (.jnum 1)
      (by simp [alertFlags]) rfl rfl rfl⟩

/-- The sleep and steps branch event name, restated the way the amended
claims put it: the lowered label when one is present, nonempty and not
"status"; the branch default otherwise. -/
theorem branchName_eq (etype : Option String) (d : String) :
    branchName etype d
      = etype.elim d (fun t => if t = "status" ∨ t = "" then d else t) := by
  cases etype with
  | none => rfl
  | some t =>
    rcases eq_or_ne t "status" with rfl | h1
    · rfl
    · rcases eq_or_ne t "" with rfl | h2
      · rfl
      · have e1 : (some t == some "status") = false := by
          rw [beq_eq_false_iff_ne]; simp [h1]
        have e2 : (t == "") = false := by
          rw [beq_eq_false_iff_ne]; exact h2
        simp [branchName, orLabel, e1, e2, h1, h2]

/-- Claim C6, counterexample: with sleep_state changing and the event
label present as the empty string (which is not "status"), the emitted
event type is the default "sleep_state_change", not the empty label the
claim prescribes: the code treats a falsy label like an absent one. -/
theorem c6_counterexample :
    eventsOf (upload (.parsed (.jobj
        [("device_id", .jstr "W1"), ("sleep_state", .jnum 1), ("event", .jstr "")]))
        "t" []).2 (.jstr "W1")
      = [⟨"sleep_state_change", "t", .jobj [("sleep_state", .jnum 1)]⟩] ∧
    lookupJ [("device_id", JValue.jstr "W1"), ("sleep_state", .jnum 1),
        ("event", .jstr "")] "event"
      = some (.jstr "") ∧
    ("" : String) ≠ "status" ∧ ("sleep_state_change" : String) ≠ "" :=
  ⟨rfl, rfl, by decide, by decide⟩

/-- Claim C6 (amended): if no alert fired and sleep_state is present with
a coerced value differing from the previous one, the call emits (first in
its event list) one sleep event whose type is the lowered explicit label
when present, nonempty and not "status", and "sleep_state_change"
otherwise, with payload carrying the new sleep value. -/
theorem c6_sleep_state_change (dev0 : Dev) (fields : List (String × JValue))
    (now : String) (etype : Option String) (v : JValue)
    (heta : eventTypeOf fields = .ok etype)
    (halert : findAlert fields dev0 etype = none)
    (hv : lookupJ fields "sleep_state" = some v)
    (hch : pyEq dev0.sleep_state (coerceSleep v) = false) :
    (∃ out, ingest dev0 fields now = .ok out ∧
      out.newEvents.head? = some ⟨branchName etype "sleep_state_change", now,
        .jobj [("sleep_state", coerceSleep v)]⟩ ∧
      out.created.head? = some "sleep_state_change") ∧
    branchName etype "sleep_state_change"
      = etype.elim "sleep_state_change"
          (fun t => if t = "status" ∨ t = "" then "sleep_state_change" else t) := by
  have hs : sleepFires dev0 (ingestDev dev0 fields now) fields = true := by
    simp [sleepFires, hv, ingestDev_sleep_state, hch]
  constructor
  · simp only [ingest, heta]
    refine ⟨_, rfl, ?_, ?_⟩
    · unfold deriveEvents
      rw [halert]
      cases hts : stepsFires dev0 (ingestDev dev0 fields now) fields <;>
        simp [hs, hts, ingestDev_sleep_state, hv]
    · unfold deriveEvents
      rw [halert]
      cases hts : stepsFires dev0 (ingestDev dev0 fields now) fields <;>
        simp [hs, hts]
  · exact branchName_eq etype "sleep_state_change"

/-- Claim C6, witness: previous sleep 0, incoming sleep 1, no label: one
sleep_state_change event, first in the list. -/
theorem c6_witness :
    eventTypeOf [("device_id", .jstr "W5"), ("sleep_state", .jnum 1)] = .ok none ∧
    findAlert [("device_id", .jstr "W5"), ("sleep_state", .jnum 1)]
        (defaultDev (.jstr "W5")) none = none ∧
    pyEq (defaultDev (.jstr "W5")).sleep_state (coerceSleep (.jnum 1)) = false ∧
    ((∃ out, ingest (defaultDev (.jstr "W5"))
        [("device_id", .jstr "W5"), ("sleep_state", .jnum 1)] "t" = .ok out ∧
        out.newEvents.head? = some ⟨branchName none "sleep_state_change", "t",
          .jobj [("sleep_state", coerceSleep (.jnum 1))]⟩ ∧
        out.created.head? = some "sleep_state_change") ∧
      branchName none "sleep_state_change"
        = Option.elim none "sleep_state_change"
            (fun t => if t = "status" ∨ t = "" then "sleep_state_change" else t)) :=
  ⟨rfl, rfl, rfl,
   c6_sleep_state_change (defaultDev (.jstr "W5"))
     [("device_id", .jstr "W5"), ("sleep_state", .jnum 1)] "t" none (.jnum 1)
     rfl rfl rfl rfl⟩

/-- Claim C7, counterexample: with steps present and changed and the event
label present as the empty string (not "status"), the emitted event type
is the default "steps_update", not the empty label the claim prescribes. -/
theorem c7_counterexample :
    eventsOf (upload (.parsed (.jobj
        [("device_id", .jstr "W2"), ("steps", .jnum 5), ("event", .jstr "")]))
        "t" []).2 (.jstr "W2")
      = [⟨"steps_update", "t", .jobj [("steps", .jnum 5)]⟩] ∧
    lookupJ [("device_id", JValue.jstr "W2"), ("steps", .jnum 5),
        ("event", .jstr "")] "event"
      = some (.jstr "") ∧
    ("" : String) ≠ "status" ∧ ("steps_update" : String) ≠ "" :=
  ⟨rfl, rfl, by decide, by decide⟩

/-- Claim C7 (amended): if no alert fired and steps is present, then when
there was no previous value or the coerced value differs, the call emits a
steps event (last in its event list) with payload carrying the new steps
value and type equal to the lowered label when present, nonempty and not
"status", and "steps_update" otherwise; when the previous value exists and
the coerced value is unchanged (and neither the sleep branch nor the
generic label fires), the call emits nothing and the stored steps
value is rewritten to an equal value. -/
theorem c7_steps_update (dev0 : Dev) (fields : List (String × JValue))
    (now : String) (etype : Option String) (v : JValue)
    (heta : eventTypeOf fields = .ok etype)
    (halert : findAlert fields dev0 etype = none)
    (hv : lookupJ fields "steps" = some v) :
    (jbeq dev0.steps .jnull = true ∨ pyEq (coerceSteps v) dev0.steps = false →
      ∃ out, ingest dev0 fields now = .ok out ∧
        out.newEvents.getLast? = some ⟨branchName etype "steps_update", now,
          .jobj [("steps", coerceSteps v)]⟩ ∧
        out.created.getLast? = some "steps_update") ∧
    (jbeq dev0.steps .jnull = false → pyEq (coerceSteps v) dev0.steps = true →
      sleepFires dev0 (ingestDev dev0 fields now) fields = false →
      genericFires etype = false →
      ∃ out, ingest dev0 fields now = .ok out ∧
        out.newEvents = [] ∧ out.created = [] ∧
        out.dev.steps = coerceSteps v ∧ pyEq out.dev.steps dev0.steps = true) := by
  constructor
  · intro h
    have hts : stepsFires dev0 (ingestDev dev0 fields now) fields = true := by
      rcases h with h | h <;> simp [stepsFires, hv, ingestDev_steps, h]
    simp only [ingest, heta]
    refine ⟨_, rfl, ?_, ?_⟩
    · unfold deriveEvents
      rw [halert]
      cases hsl : sleepFires dev0 (ingestDev dev0 fields now) fields <;>
        simp [hsl, hts, ingestDev_steps, hv, List.getLast?_concat]
    · unfold deriveEvents
      rw [halert]
      cases hsl : sleepFires dev0 (ingestDev dev0 fields now) fields <;>
        simp [hsl, hts, List.getLast?_concat]
  · intro hnn heq hsl hgen
    have hts : stepsFires dev0 (ingestDev dev0 fields now) fields = false := by
      simp [stepsFires, hv, ingestDev_steps, hnn, heq]
    simp only [ingest, heta]
    have hde : deriveEvents dev0 (ingestDev dev0 fields now) fields etype now = ([], []) := by
      unfold deriveEvents
      rw [halert]
      simp only [hsl, hts]
      cases etype with
      | none => simp
      | some t => simp [hgen]
    rw [hde]
    refine ⟨_, rfl, rfl, rfl, ?_, ?_⟩
    · simp [ingestDev_steps, hv]
    · simp only [ingestDev_steps, hv]
      exact heq

/-- Claim C7, witness: a first steps reading emits one steps_update event;
an unchanged steps value emits nothing and keeps the stored value. -/
theorem c7_witness :
    jbeq (defaultDev (.jstr "W6")).steps .jnull = true ∧
    (∃ out, ingest (defaultDev (.jstr "W6"))
        [("device_id", .jstr "W6"), ("steps", .jnum 7)] "t" = .ok out ∧
      out.newEvents.getLast? = some ⟨branchName none "steps_update", "t",
        .jobj [("steps", coerceSteps (.jnum 7))]⟩ ∧
      out.created.getLast? = some "steps_update") ∧
    pyEq (coerceSteps (.jnum 100)) { defaultDev (.jstr "W6") with steps := .jnum 100 }.steps
      = true ∧
    (∃ out, ingest { defaultDev (.jstr "W6") with steps := .jnum 100 }
        [("device_id", .jstr "W6"), ("steps", .jnum 100)] "t" = .ok out ∧
      out.newEvents = [] ∧ out.created = [] ∧
      out.dev.steps = coerceSteps (.jnum 100) ∧
      pyEq out.dev.steps { defaultDev (.jstr "W6") with steps := .jnum 100 }.steps = true) :=
  ⟨rfl,
   (c7_steps_update (defaultDev (.jstr "W6"))
      [("device_id", .jstr "W6"), ("steps", .jnum 7)] "t" none (.jnum 7)
      rfl rfl rfl).1 (Or.inl rfl),
   rfl,
   (c7_steps_update { defaultDev (.jstr "W6") with steps := .jnum 100 }
      [("device_id", .jstr "W6"), ("steps", .jnum 100)] "t" none (.jnum 100)
      rfl rfl rfl).2 rfl rfl rfl rfl⟩

/-- The payloads under which replaying a call is quiet: the event label is
absent, or lowers to the empty string or to "status" (any other label
re-fires the generic fallback branch on every call). -/
def labelIdemB (fields : List (String × JValue)) : Bool :=
  match lookupJ fields "event" with
  | none => true
  | some (.jstr s) => strLower s == "" || strLower s == "status"
  | some _ => false

/-- The steps value, when present, is not null (a null steps value stores
None, and the steps branch re-fires on a None previous value on every
call). -/
def stepsNotNullB (fields : List (String × JValue)) : Bool :=
  match lookupJ fields "steps" with
  | some .jnull => false
  | _ => true

theorem labelIdemB_cases (fields : List (String × JValue))
    (hl : labelIdemB fields = true) :
    ∃ etype, eventTypeOf fields = .ok etype ∧
      (etype = none ∨ etype = some "" ∨ etype = some "status") := by
  unfold labelIdemB at hl
  cases hle : lookupJ fields "event" with
  | none => exact ⟨none, by simp [eventTypeOf, hle], Or.inl rfl⟩
  | some v =>
    rw [hle] at hl
    cases v with
    | jstr s =>
      refine ⟨some (strLower s), by simp [eventTypeOf, hle], ?_⟩
      by_cases h : strLower s = ""
      · exact Or.inr (Or.inl (by simp [h]))
      · have h2 : strLower s = "status" := by
          simp [beq_iff_eq, h] at hl
          exact hl
        exact Or.inr (Or.inr (by simp [h2]))
    | jnull => simp at hl
    | jbool b => simp at hl
    | jnum n => simp at hl
    | jarr xs => simp at hl
    | jobj fs => simp at hl

/-- After a call has set every flag from the payload, a second call with
the same payload (whose label, if any, is empty or "status") finds no flag
with a rising edge. -/
theorem alertCond_replay (fields : List (String × JValue)) (dev0 D : Dev)
    (etype : Option String) (f : String) (hf : f ∈ alertFlags)
    (hflag : flagOf D f = flagUpdate fields f (flagOf dev0 f))
    (hetype : etype = none ∨ etype = some "" ∨ etype = some "status") :
    alertCond fields D etype f = false := by
  have heqf : (etype == some f) = false := by
    simp only [alertFlags, List.mem_cons, List.mem_singleton, List.not_mem_nil,
      or_false] at hf
    rcases hetype with rfl | rfl | rfl <;> rcases hf with rfl | rfl | rfl <;> decide
  cases hlf : lookupJ fields f with
  | none => simp [alertCond, hlf, heqf]
  | some v =>
    simp only [flagUpdate, hlf] at hflag
    by_cases hv : pyTruthy v = true
    · simp [alertCond, hlf, hflag, pyBoolInt, pyTruthy, hv]
    · simp [alertCond, hlf, pyBoolInt, hv]

set_option maxRecDepth 8000 in
/-- Claim C5 (amended): replaying an identical payload against the
snapshot the first call produced yields zero events on the second call,
provided the payload event label is absent, empty or "status", and its
steps value, if present, is not null.  (Otherwise the claim fails: the
generic fallback has no change detection and a null steps value re-fires
the steps branch, see the counterexample.) -/
theorem c5_replay_emits_nothing (dev0 : Dev) (fields : List (String × JValue))
    (now now2 : String)
    (hl : labelIdemB fields = true) (hs : stepsNotNullB fields = true) :
    ∀ out, ingest dev0 fields now = .ok out →
      ∃ dev2, ingest out.dev fields now2 = .ok ⟨dev2, [], []⟩ := by
  intro out h1
  obtain ⟨etype, heta, hcase⟩ := labelIdemB_cases fields hl
  simp only [ingest, heta] at h1
  injection h1 with h1
  have hDsleep : ∀ v, lookupJ fields "sleep_state" = some v →
      out.dev.sleep_state = coerceSleep v := by
    intro v hv
    rw [← h1]
    simp [ingestDev_sleep_state, hv]
  have hDsteps : ∀ v, lookupJ fields "steps" = some v →
      out.dev.steps = coerceSteps v := by
    intro v hv
    rw [← h1]
    simp [ingestDev_steps, hv]
  have hDflag : ∀ f, f ∈ alertFlags →
      flagOf out.dev f = flagUpdate fields f (flagOf dev0 f) := by
    intro f hf
    rw [← h1]
    simp only [alertFlags, List.mem_cons, List.mem_singleton, List.not_mem_nil,
      or_false] at hf
    rcases hf with rfl | rfl | rfl
    · exact ingestDev_flagOf dev0 fields now "seizure" (by simp [alertFlags])
    · exact ingestDev_flagOf dev0 fields now "fall" (by simp [alertFlags])
    · exact ingestDev_flagOf dev0 fields now "sos" (by simp [alertFlags])
  have hfa : findAlert fields out.dev etype = none := by
    apply List.find?_eq_none.mpr
    intro f hf
    simp only [Bool.not_eq_true]
    exact alertCond_replay fields dev0 out.dev etype f hf (hDflag f hf) hcase
  have hsl : sleepFires out.dev (ingestDev out.dev fields now2) fields = false := by
    cases hv : lookupJ fields "sleep_state" with
    | none => simp [sleepFires, hv]
    | some v =>
      simp [sleepFires, hv, ingestDev_sleep_state, hDsleep v hv, pyEq_refl]
  have hts : stepsFires out.dev (ingestDev out.dev fields now2) fields = false := by
    cases hv : lookupJ fields "steps" with
    | none => simp [stepsFires, hv]
    | some v =>
      have hvn : v ≠ .jnull := by
        intro hc
        subst hc
        simp [stepsNotNullB, hv] at hs
      have hnn : jbeq (coerceSteps v) .jnull = false := by
        cases hpi : pyInt v with
        | some n => simp [coerceSteps, hpi, jbeq]
        | none =>
          simp only [coerceSteps, hpi]
          cases hjb : jbeq v .jnull with
          | false => rfl
          | true => exact absurd ((jbeq_jnull_iff v).mp hjb) hvn
      simp [stepsFires, hv, ingestDev_steps, hDsteps v hv, hnn, pyEq_refl]
  have hde : deriveEvents out.dev (ingestDev out.dev fields now2) fields etype now2
      = ([], []) := by
    unfold deriveEvents
    rw [hfa]
    simp only [hsl, hts]
    rcases hcase with rfl | rfl | rfl <;> simp [genericFires]
  simp only [ingest, heta]
  rw [hde]
  exact ⟨_, rfl⟩

/-- Claim C5, counterexample: replaying the payload device_id W1 with
event label custom_label re-emits a custom_label event on the second call
(the generic branch has no change detection); replaying device_id W2 with
steps null re-emits a steps_update event (the previous value is None
again). -/
theorem c5_counterexample :
    (upload (.parsed (.jobj [("device_id", .jstr "W1"), ("event", .jstr "custom_label")]))
        "t2"
        (upload (.parsed (.jobj [("device_id", .jstr "W1"), ("event", .jstr "custom_label")]))
          "t1" []).2).1
      = .ok ["custom_label"] ∧
    (upload (.parsed (.jobj [("device_id", .jstr "W2"), ("steps", .jnull)])) "t2"
        (upload (.parsed (.jobj [("device_id", .jstr "W2"), ("steps", .jnull)])) "t1" []).2).1
      = .ok ["steps_update"] ∧
    (Response.ok ["custom_label"] ≠ .ok [] ∧ Response.ok ["steps_update"] ≠ .ok []) :=
  ⟨rfl, rfl, by simp, by simp⟩

/-- Claim C5, witness: a payload with sleep and steps readings and no
label is quiet on replay. -/
theorem c5_witness :
    labelIdemB [("device_id", .jstr "W7"), ("sleep_state", .jnum 1), ("steps", .jnum 5)]
      = true ∧
    stepsNotNullB [("device_id", .jstr "W7"), ("sleep_state", .jnum 1), ("steps", .jnum 5)]
      = true ∧
    (∀ out, ingest (defaultDev (.jstr "W7"))
        [("device_id", .jstr "W7"), ("sleep_state", .jnum 1), ("steps", .jnum 5)] "t1"
        = .ok out →
      ∃ dev2, ingest out.dev
        [("device_id", .jstr "W7"), ("sleep_state", .jnum 1), ("steps", .jnum 5)] "t2"
        = .ok ⟨dev2, [], []⟩) :=
  ⟨rfl, rfl,
   c5_replay_emits_nothing (defaultDev (.jstr "W7"))
     [("device_id", .jstr "W7"), ("sleep_state", .jnum 1), ("steps", .jnum 5)]
     "t1" "t2" rfl rfl⟩

end WatchServer
